import Mathlib

/-!
Shallow embedding of `src/server.js` (second revision: the one the claim line
numbers point at), the video-recorder service.  The embedding models the
`POST /record-video` handler and its helpers `killProcess`, `cleanup`,
`startXvfb`, `startChrome` (with its inner `validateVideo` polling loop) and
`recordVideo`, over an explicit server state (the module-level mutable
variables `isRecording` and `activeProcesses`, plus the existence of the
job's output file).  External-world behaviour for one run (spawn failures,
early process exits, the encoder's exit code, whether the output file got
written) is supplied by an `Env` record.

Node.js semantics that matter and are modelled faithfully:
- `ChildProcess.killed` is set to `true` only when `subprocess.kill()`
  successfully sends a signal to the process; it does NOT mean the process
  has exited.  A process that exits on its own keeps `killed = false`, and a
  live process that received SIGTERM has `killed = true`.
- `subprocess.kill(sig)` succeeds (returns `true`, sets `killed`) exactly
  when the OS process is still running; SIGTERM terminates the process
  during the grace period unless the process ignores/survives it, SIGKILL
  always terminates it.
- JavaScript truthiness: `0`, `""`, `undefined` are falsy.
- JavaScript relational comparison with a number operand coerces the other
  operand with ToNumber; a non-numeric string gives NaN and every comparison
  with NaN is `false`.  Numbers are modelled as integers (JSON durations in
  the claims are integers); numeric strings are read with `String.toInt?`.
-/

namespace VideoRec

/-- A JSON/JavaScript value as it appears in `req.body` fields. -/
inductive JSVal
  | undefined
  | num (n : Int)
  | str (s : String)
deriving DecidableEq, Repr

/-- JavaScript truthiness: `undefined`, `0` and `""` are falsy. -/
def truthy : JSVal → Bool
  | JSVal.undefined => false
  | JSVal.num n => n != 0
  | JSVal.str s => s != ""

/-- Digits of an integer literal read as a natural number; `none` when the
list is empty or contains a non-digit. -/
def digitsToNat? (ds : List Char) : Option Nat :=
  if ds ≠ [] ∧ ds.all Char.isDigit then
    some (ds.foldl (fun a c => 10 * a + (c.toNat - '0'.toNat)) 0)
  else none

/-- JS ToNumber on a string, restricted to optional-sign integer literals:
`""` is `0`, `"500"` is `500`, `"-12"` is `-12`, and anything else is NaN
(`none`).  This is the fragment the claims exercise. -/
def strToNumber (s : String) : Option Int :=
  match s.data with
  | [] => some 0
  | '-' :: ds => Option.map (fun n => -(n : Int)) (digitsToNat? ds)
  | ds => Option.map (fun n => (n : Int)) (digitsToNat? ds)

/-- JavaScript ToNumber, with `none` standing for NaN.
`ToNumber(undefined) = NaN`; `ToNumber("") = 0`; a non-numeric string is
NaN.  Only integer-valued numbers are modelled. -/
def toNum : JSVal → Option Int
  | JSVal.undefined => none
  | JSVal.num n => some n
  | JSVal.str s => strToNumber s

/-- JavaScript `a < b` (abstract relational comparison with a number
operand): both sides are coerced with ToNumber; any NaN makes the
comparison `false`. -/
def jsLt (a b : JSVal) : Bool :=
  match toNum a, toNum b with
  | some x, some y => decide (x < y)
  | _, _ => false

/-- JavaScript `a > b`, which is the relational comparison `b < a`. -/
def jsGt (a b : JSVal) : Bool := jsLt b a

/-- The body of a `POST /record-video` request: the three fields the handler
destructures from `req.body` (`undefined` when absent). -/
structure Request where
  videoId : JSVal
  duration : JSVal
  previewUrl : JSVal
deriving DecidableEq, Repr

/-- A tracked child process (an entry of `activeProcesses`).
`running` is the OS-level truth (the process is still alive when it is next
signalled); `killed` is Node's `ChildProcess.killed` flag, set only by a
successful `subprocess.kill()`; `survivesTerm` says whether the process
ignores SIGTERM (stays alive through the 5-second grace period). -/
structure Proc where
  name : String
  running : Bool
  killed : Bool
  survivesTerm : Bool
deriving DecidableEq, Repr

/-- Signals the supervisor can send. -/
inductive Sig
  | sigterm
  | sigkill
deriving DecidableEq, Repr

/-- Node's `subprocess.kill(sig)`: succeeds exactly when the OS process is
still running; on success sets the `killed` flag and delivers the signal
(SIGTERM kills the process during the grace period unless it survives
SIGTERM; SIGKILL always kills it).  Returns whether the send succeeded. -/
def nodeKill (p : Proc) (sig : Sig) : Bool × Proc :=
  if p.running then
    (true, { p with
              killed := true,
              running := match sig with
                         | Sig.sigterm => p.survivesTerm
                         | Sig.sigkill => false })
  else
    (false, p)

/-- `killProcess(process, name)` from `src/server.js` lines 303-319:
```
if (process && !process.killed) {
  process.kill('SIGTERM');
  setTimeout(() => {
    if (!process.killed) { process.kill('SIGKILL'); }
    resolve();
  }, 5000);
} else { resolve(); }
```
Returns the successfully sent signals and the process state when the
promise resolves (it always resolves).  The second `!process.killed` check
happens after the 5-second grace period has elapsed. -/
def killProcess (p : Proc) : List Sig × Proc :=
  if !p.killed then
    let r1 := nodeKill p Sig.sigterm
    -- 5 seconds elapse; the code then re-reads the handle's killed flag
    if !r1.2.killed then
      let r2 := nodeKill r1.2 Sig.sigkill
      ((if r1.1 then [Sig.sigterm] else []) ++ (if r2.1 then [Sig.sigkill] else []),
       r2.2)
    else
      ((if r1.1 then [Sig.sigterm] else []), r1.2)
  else
    ([], p)

/-- Error values for the rejection paths of the stage promises, carrying
what the corresponding JS `Error` messages carry. -/
inductive RecErr
  | xvfbSpawnError          -- Xvfb 'error' event (spawn failure)
  | xvfbFailedToStart       -- 'Xvfb failed to start'
  | chromeSpawnError        -- Chrome 'error' event (spawn failure)
  | chromeFailedToStart     -- 'Chrome failed to start'
  | chromeDiedDuringLoad    -- 'Chrome process died during video loading'
  | ffmpegSpawnError        -- FFmpeg 'error' event (spawn failure)
  | ffmpegExit (code : Option Int)  -- 'FFmpeg failed with exit code X'
  | fileNotCreated          -- 'Recording file was not created'
deriving DecidableEq, Repr

/-- The mutable server state: the module-level `isRecording` flag and
`activeProcesses` array, plus the observables the claims need — whether the
current job's output file exists, whether its deferred 60-second deletion
has been scheduled, and the log of commands handed to `spawn`. -/
structure ServerState where
  isRecording : Bool
  activeProcesses : List Proc
  outputExists : Bool
  deferredDelete : Bool
  spawned : List String
deriving DecidableEq, Repr

/-- The state at service start: `isRecording = false`, no tracked
processes, no files, nothing spawned. -/
def initState : ServerState :=
  { isRecording := false
    activeProcesses := []
    outputExists := false
    deferredDelete := false
    spawned := [] }

/-- `cleanup()` from lines 321-323:
`return Promise.all(activeProcesses.map(proc => killProcess(proc.process, proc.name)))`.
Each tracked process handle is signalled in place; the array itself is not
modified (same entries, updated handle states). -/
def cleanup (s : ServerState) : ServerState :=
  { s with activeProcesses := s.activeProcesses.map (fun p => (killProcess p).2) }

/-- The call-site pattern `await cleanup(); activeProcesses = [];` used on
both the success path (lines 531-533) and the catch path (lines 561-563) of
the handler. -/
def cleanupAndClear (s : ServerState) : ServerState :=
  { cleanup s with activeProcesses := [] }

/-- One run's external-world behaviour, fixed up front: which spawns fail
with an 'error' event, which processes exit early on their own, whether they
survive SIGTERM, the encoder's exit code (`none` = closed by signal), and
whether the encoder wrote the output file. -/
structure Env where
  xvfbSpawnError : Bool
  xvfbExitsEarly : Bool     -- Xvfb exits on its own inside the 3s settle window
  xvfbSurvivesTerm : Bool
  chromeSpawnError : Bool
  chromeExitsDuringLoad : Bool  -- Chrome exits on its own during page load
  chromeSurvivesTerm : Bool
  ffmpegSpawnError : Bool
  ffmpegExit : Option Int   -- exit code at the 'close' event
  fileCreated : Bool        -- output file exists once the encoder stage ends
deriving DecidableEq, Repr

/-- The Xvfb handle as spawned: `killed` starts false and nothing kills it
during the settle window; `running` records whether the OS process is still
alive at the end of the window. -/
def xvfbProc (env : Env) : Proc :=
  { name := "Xvfb"
    running := !env.xvfbExitsEarly
    killed := false
    survivesTerm := env.xvfbSurvivesTerm }

/-- The Chrome handle as spawned; `killed` starts false and nothing kills it
during the load wait. -/
def chromeProc (env : Env) : Proc :=
  { name := "Chrome"
    running := !env.chromeExitsDuringLoad
    killed := false
    survivesTerm := env.chromeSurvivesTerm }

/-- The FFmpeg handle; by the time cleanup reaches it the encoder has
already closed (its promise settles on the 'close' or 'error' event), so it
is no longer running. -/
def ffmpegProc : Proc :=
  { name := "FFmpeg"
    running := false
    killed := false
    survivesTerm := false }

/-- The server state right after `spawn('Xvfb', ...)` and
`activeProcesses.push({ process: xvfb, name: 'Xvfb' })`. -/
def afterXvfbSpawn (env : Env) (s : ServerState) : ServerState :=
  { s with
     activeProcesses := s.activeProcesses ++ [xvfbProc env],
     spawned := s.spawned ++ ["Xvfb"] }

/-- The server state right after `spawn('google-chrome', ...)` and the
corresponding push. -/
def afterChromeSpawn (env : Env) (s : ServerState) : ServerState :=
  { s with
     activeProcesses := s.activeProcesses ++ [chromeProc env],
     spawned := s.spawned ++ ["google-chrome"] }

/-- The server state after `spawn('ffmpeg', ...)`, the corresponding push,
and the encoder's run (which is when the output file comes into existence,
or not). -/
def afterFfmpegSpawn (env : Env) (s : ServerState) : ServerState :=
  { s with
     activeProcesses := s.activeProcesses ++ [ffmpegProc],
     spawned := s.spawned ++ ["ffmpeg"],
     outputExists := env.fileCreated }

/-- `startXvfb()` from lines 325-348.  The handle is pushed onto
`activeProcesses` right after `spawn`.  If the 'error' event fires the
promise rejects; otherwise after the 3-second settle timeout the code runs
`if (!xvfb.killed) resolve(xvfb); else reject(new Error('Xvfb failed to start'))`.
Note the check reads Node's `killed` flag, which no one sets during the
window, not whether the process exited. -/
def startXvfb (env : Env) (s : ServerState) : Except RecErr Proc × ServerState :=
  let xvfb := xvfbProc env
  let s1 := afterXvfbSpawn env s
  if env.xvfbSpawnError then
    (Except.error RecErr.xvfbSpawnError, s1)
  else if xvfb.killed then
    (Except.error RecErr.xvfbFailedToStart, s1)
  else
    (Except.ok xvfb, s1)

/-- `checkInterval = 2000` (ms) from line 413. -/
def checkIntervalMs : Nat := 2000

/-- `maxWaitTime = 30000` (ms) from line 414. -/
def maxWaitTimeMs : Nat := 30000

/-- The `validateVideo` polling loop inside `startChrome` (lines 412-434):
```
waitTime += checkInterval;                      // checkInterval = 2000
if (waitTime >= maxWaitTime) { resolve(chrome); return; }   // maxWaitTime = 30000
if (!chrome.killed) { setTimeout(validateVideo, checkInterval); }
else { reject(new Error('Chrome process died during video loading')); }
```
The `waitTime` accumulator counting up by `checkInterval` to the
`maxWaitTime` cap is represented by its complement, the number of liveness
checks still to run before the cap is reached: `waitTime >= maxWaitTime`
is `remaining = 0` ('Maximum wait time reached - assuming video is ready'
→ resolve), and each loop iteration checks the handle's `killed` flag and
recurses with one fewer remaining check.  `killed` is the flag's value as
read at each check (constant `false` in a run, since nothing kills Chrome
during the load wait). -/
def validateVideo (killed : Bool) : Nat → Except RecErr Unit
  | 0 => Except.ok ()
  | remaining + 1 =>
    if killed then Except.error RecErr.chromeDiedDuringLoad
    else validateVideo killed remaining

/-- The number of `killed` checks the loop performs before the cap: the
first check happens at `waitTime = 2000` and the last at `28000`, so
`maxWaitTime/checkInterval - 1 = 14`. -/
def initialChecks : Nat := maxWaitTimeMs / checkIntervalMs - 1

/-- `startChrome(previewUrl)` from lines 350-440.  The handle is pushed
right after `spawn`; the 'error' event rejects; otherwise after the 2-second
timeout the code checks `!chrome.killed` (the Node flag, still false) and
enters the `validateVideo` loop. -/
def startChrome (env : Env) (s : ServerState) : Except RecErr Proc × ServerState :=
  let chrome := chromeProc env
  let s1 := afterChromeSpawn env s
  if env.chromeSpawnError then
    (Except.error RecErr.chromeSpawnError, s1)
  else if chrome.killed then
    (Except.error RecErr.chromeFailedToStart, s1)
  else
    match validateVideo chrome.killed initialChecks with
    | Except.ok _ => (Except.ok chrome, s1)
    | Except.error e => (Except.error e, s1)

/-- `recordVideo(duration, outputPath)` from lines 442-499.  The handle is
pushed right after `spawn`; the encoder writes (or fails to write) the
output file while it runs; the promise resolves exactly when the 'close'
event reports exit code 0 (`code === 0`), rejects with the exit code
otherwise, and rejects on the 'error' event. -/
def recordVideo (env : Env) (s : ServerState) : Except RecErr Unit × ServerState :=
  let s1 := afterFfmpegSpawn env s
  if env.ffmpegSpawnError then
    (Except.error RecErr.ffmpegSpawnError, s1)
  else if env.ffmpegExit = some 0 then
    (Except.ok (), s1)
  else
    (Except.error (RecErr.ffmpegExit env.ffmpegExit), s1)

/-- The handler's response values, tagged with their HTTP status. -/
inductive Response
  | busy429
  | invalid400 (msg : String)
  | ok200
  | fail500 (e : RecErr)
deriving DecidableEq, Repr

/-- HTTP status code of a response. -/
def statusOf : Response → Nat
  | Response.busy429 => 429
  | Response.invalid400 _ => 400
  | Response.ok200 => 200
  | Response.fail500 _ => 500

/-- The catch block of the handler (lines 559-573):
`await cleanup(); activeProcesses = [];` then
`if (fs.existsSync(outputPath)) fs.unlinkSync(outputPath);` then a 500
response carrying the error message. -/
def catchPath (e : RecErr) (s : ServerState) : Response × ServerState :=
  let s1 := cleanupAndClear s
  let s2 := { s1 with outputExists := false }
  (Response.fail500 e, s2)

/-- The try block of the handler (lines 519-557) with its catch: the three
stages in order, then `await cleanup(); activeProcesses = [];`, then the
`fs.existsSync` check — a 200 response (and the 60-second deferred file
deletion is scheduled) if the file exists, otherwise
`throw new Error('Recording file was not created')` into the catch.  Any
stage rejection lands in the catch block. -/
def runJob (env : Env) (s : ServerState) : Response × ServerState :=
  match startXvfb env s with
  | (Except.error e, s1) => catchPath e s1
  | (Except.ok _, s1) =>
    match startChrome env s1 with
    | (Except.error e, s2) => catchPath e s2
    | (Except.ok _, s2) =>
      match recordVideo env s2 with
      | (Except.error e, s3) => catchPath e s3
      | (Except.ok _, s3) =>
        let s4 := cleanupAndClear s3
        if s4.outputExists then
          (Response.ok200, { s4 with deferredDelete := true })
        else
          catchPath RecErr.fileNotCreated s4

/-- Line 508: `if (!videoId || !duration || !previewUrl)` — some required
field is absent or falsy. -/
def missingField (req : Request) : Bool :=
  !truthy req.videoId || !truthy req.duration || !truthy req.previewUrl

/-- Line 512: `if (duration < 1 || duration > 300)` with JavaScript
comparison semantics. -/
def durationOutOfRange (req : Request) : Bool :=
  jsLt req.duration (JSVal.num 1) || jsGt req.duration (JSVal.num 300)

/-- Line 516: `isRecording = true` — the admission flag is set; this is the
state in which the Provisioning stage (startXvfb) begins. -/
def admitJob (s : ServerState) : ServerState :=
  { s with isRecording := true }

/-- Line 575: `finally { isRecording = false; }`. -/
def clearFlag (s : ServerState) : ServerState :=
  { s with isRecording := false }

/-- The `POST /record-video` handler (lines 501-577): the busy check, the
two validation checks, admission, the try/catch job run, and the `finally`
that clears the admission flag on every exit path. -/
def submit (env : Env) (req : Request) (s : ServerState) : Response × ServerState :=
  if s.isRecording then
    (Response.busy429, s)
  else if missingField req then
    (Response.invalid400 "videoId, duration, and previewUrl are required", s)
  else if durationOutOfRange req then
    (Response.invalid400 "Duration must be between 1 and 300 seconds", s)
  else
    let r := runJob env (admitJob s)
    (r.1, clearFlag r.2)

/-! ### Basic lemmas about the stage functions -/

/-- While the handle's `killed` flag stays `false` (nothing kills Chrome
during the load wait), the `validateVideo` loop always resolves: it counts
the wait up to the 30-second cap and then assumes readiness. -/
theorem validateVideo_not_killed (n : Nat) : validateVideo false n = Except.ok () := by
  induction n with
  | zero => rfl
  | succ n ih => simpa [validateVideo] using ih

/-- `startXvfb` pushes the handle, then fails only on the spawn 'error'
event: the settle check reads the `killed` flag, which is still `false`
whether or not the process exited on its own. -/
theorem startXvfb_eq (env : Env) (s : ServerState) :
    startXvfb env s =
      ((if env.xvfbSpawnError then Except.error RecErr.xvfbSpawnError
        else Except.ok (xvfbProc env)), afterXvfbSpawn env s) := by
  by_cases h : env.xvfbSpawnError = true <;> simp [startXvfb, h, xvfbProc]

/-- `startChrome` pushes the handle, then fails only on the spawn 'error'
event: both `killed` checks see `false` and the `validateVideo` loop always
resolves. -/
theorem startChrome_eq (env : Env) (s : ServerState) :
    startChrome env s =
      ((if env.chromeSpawnError then Except.error RecErr.chromeSpawnError
        else Except.ok (chromeProc env)), afterChromeSpawn env s) := by
  by_cases h : env.chromeSpawnError = true <;>
    simp [startChrome, h, chromeProc, validateVideo_not_killed]

/-- `recordVideo` pushes the handle and then settles by the spawn 'error'
event or the exit code of the 'close' event. -/
theorem recordVideo_eq (env : Env) (s : ServerState) :
    recordVideo env s =
      ((if env.ffmpegSpawnError then Except.error RecErr.ffmpegSpawnError
        else if env.ffmpegExit = some 0 then Except.ok ()
        else Except.error (RecErr.ffmpegExit env.ffmpegExit)), afterFfmpegSpawn env s) := by
  by_cases h : env.ffmpegSpawnError = true
  · simp [recordVideo, h]
  · simp only [recordVideo, h, Bool.false_eq_true, if_false, ite_false]
    split <;> rfl

theorem catchPath_fst (e : RecErr) (s : ServerState) :
    (catchPath e s).1 = Response.fail500 e := rfl

theorem catchPath_clears (e : RecErr) (s : ServerState) :
    (catchPath e s).2.activeProcesses = [] := rfl

theorem catchPath_spawned (e : RecErr) (s : ServerState) :
    (catchPath e s).2.spawned = s.spawned := rfl

theorem catchPath_outputExists (e : RecErr) (s : ServerState) :
    (catchPath e s).2.outputExists = false := rfl

theorem cleanup_spawned (s : ServerState) :
    (cleanup s).spawned = s.spawned := rfl

theorem cleanupAndClear_spawned (s : ServerState) :
    (cleanupAndClear s).spawned = s.spawned := rfl

theorem cleanupAndClear_outputExists (s : ServerState) :
    (cleanupAndClear s).outputExists = s.outputExists := rfl

/-- Every path through the try/catch of the handler ends with
`activeProcesses = []`: both terminal shapes run
`await cleanup(); activeProcesses = [];`. -/
theorem runJob_clears (env : Env) (s : ServerState) :
    (runJob env s).2.activeProcesses = [] := by
  by_cases h1 : env.xvfbSpawnError = true
  · simp [runJob, startXvfb_eq, h1, catchPath_clears]
  · by_cases h2 : env.chromeSpawnError = true
    · simp [runJob, startXvfb_eq, startChrome_eq, h1, h2, catchPath_clears]
    · by_cases h3 : env.ffmpegSpawnError = true
      · simp [runJob, startXvfb_eq, startChrome_eq, recordVideo_eq, h1, h2, h3,
          catchPath_clears]
      · by_cases h4 : env.ffmpegExit = some 0
        · simp only [runJob, startXvfb_eq, startChrome_eq, recordVideo_eq, h1, h2, h3, h4,
            Bool.false_eq_true, if_false, if_true, ite_true, ite_false]
          split <;> simp [catchPath_clears, cleanupAndClear]
        · simp [runJob, startXvfb_eq, startChrome_eq, recordVideo_eq, h1, h2, h3, h4,
            catchPath_clears]

/-- Every run of the try/catch answers either 200 or 500. -/
theorem runJob_status (env : Env) (s : ServerState) :
    statusOf (runJob env s).1 = 200 ∨ statusOf (runJob env s).1 = 500 := by
  by_cases h1 : env.xvfbSpawnError = true
  · right; simp [runJob, startXvfb_eq, h1, catchPath_fst, statusOf]
  · by_cases h2 : env.chromeSpawnError = true
    · right; simp [runJob, startXvfb_eq, startChrome_eq, h1, h2, catchPath_fst, statusOf]
    · by_cases h3 : env.ffmpegSpawnError = true
      · right; simp [runJob, startXvfb_eq, startChrome_eq, recordVideo_eq, h1, h2, h3,
          catchPath_fst, statusOf]
      · by_cases h4 : env.ffmpegExit = some 0
        · simp only [runJob, startXvfb_eq, startChrome_eq, recordVideo_eq, h1, h2, h3, h4,
            Bool.false_eq_true, if_false, if_true, ite_true, ite_false]
          split
          · left; rfl
          · right; rfl
        · right; simp [runJob, startXvfb_eq, startChrome_eq, recordVideo_eq, h1, h2, h3, h4,
            catchPath_fst, statusOf]

/-- `spawn('Xvfb', ...)` is reached on every admitted run. -/
theorem runJob_mem_xvfb (env : Env) (s : ServerState) :
    "Xvfb" ∈ (runJob env s).2.spawned := by
  by_cases h1 : env.xvfbSpawnError = true
  · simp [runJob, startXvfb_eq, h1, catchPath_spawned, afterXvfbSpawn]
  · by_cases h2 : env.chromeSpawnError = true
    · simp [runJob, startXvfb_eq, startChrome_eq, h1, h2, catchPath_spawned,
        afterXvfbSpawn, afterChromeSpawn]
    · by_cases h3 : env.ffmpegSpawnError = true
      · simp [runJob, startXvfb_eq, startChrome_eq, recordVideo_eq, h1, h2, h3,
          catchPath_spawned, afterXvfbSpawn, afterChromeSpawn, afterFfmpegSpawn]
      · by_cases h4 : env.ffmpegExit = some 0
        · simp only [runJob, startXvfb_eq, startChrome_eq, recordVideo_eq, h1, h2, h3, h4,
            Bool.false_eq_true, if_false, if_true, ite_true, ite_false]
          split <;>
            simp [catchPath_spawned, cleanupAndClear_spawned, cleanupAndClear, cleanup_spawned,
              afterXvfbSpawn, afterChromeSpawn, afterFfmpegSpawn]
        · simp [runJob, startXvfb_eq, startChrome_eq, recordVideo_eq, h1, h2, h3, h4,
            catchPath_spawned, afterXvfbSpawn, afterChromeSpawn, afterFfmpegSpawn]

/-- When neither the display spawn nor the render-host spawn fails, the run
always reaches the Capturing stage: `spawn('ffmpeg', ...)` happens. -/
theorem runJob_mem_ffmpeg (env : Env) (s : ServerState)
    (hx : env.xvfbSpawnError = false) (hc : env.chromeSpawnError = false) :
    "ffmpeg" ∈ (runJob env s).2.spawned := by
  by_cases h3 : env.ffmpegSpawnError = true
  · simp [runJob, startXvfb_eq, startChrome_eq, recordVideo_eq, hx, hc, h3,
      catchPath_spawned, afterXvfbSpawn, afterChromeSpawn, afterFfmpegSpawn]
  · by_cases h4 : env.ffmpegExit = some 0
    · simp only [runJob, startXvfb_eq, startChrome_eq, recordVideo_eq, hx, hc, h3, h4,
        Bool.false_eq_true, if_false, if_true, ite_true, ite_false]
      split <;>
        simp [catchPath_spawned, cleanupAndClear_spawned, cleanupAndClear, cleanup_spawned,
          afterXvfbSpawn, afterChromeSpawn, afterFfmpegSpawn]
    · simp [runJob, startXvfb_eq, startChrome_eq, recordVideo_eq, hx, hc, h3, h4,
        catchPath_spawned, afterXvfbSpawn, afterChromeSpawn, afterFfmpegSpawn]

/-- An accepted request (not busy, both validation checks pass) runs the
job and clears the admission flag in the `finally`. -/
theorem submit_accepted (env : Env) (req : Request) (s : ServerState)
    (h1 : s.isRecording = false) (h2 : missingField req = false)
    (h3 : durationOutOfRange req = false) :
    submit env req s =
      ((runJob env (admitJob s)).1, clearFlag (runJob env (admitJob s)).2) := by
  simp [submit, h1, h2, h3]

/-- The run in which every external step goes right: no spawn errors, no
early exits, encoder exits 0, output file written. -/
def envOk : Env :=
  { xvfbSpawnError := false
    xvfbExitsEarly := false
    xvfbSurvivesTerm := false
    chromeSpawnError := false
    chromeExitsDuringLoad := false
    chromeSurvivesTerm := false
    ffmpegSpawnError := false
    ffmpegExit := some 0
    fileCreated := true }

/-- A well-formed request (spec Scenario A shape). -/
def reqOk : Request :=
  { videoId := JSVal.str "v1"
    duration := JSVal.num 10
    previewUrl := JSVal.str "https://example/v1" }

/-- A full-success run answers 200: all stages resolve, the file exists at
the `fs.existsSync` check. -/
theorem runJob_success (env : Env) (s : ServerState)
    (hx : env.xvfbSpawnError = false) (hc : env.chromeSpawnError = false)
    (hf : env.ffmpegSpawnError = false) (he : env.ffmpegExit = some 0)
    (hfile : env.fileCreated = true) :
    (runJob env s).1 = Response.ok200 := by
  have hout : (cleanupAndClear (afterFfmpegSpawn env (afterChromeSpawn env
      (afterXvfbSpawn env s)))).outputExists = true := by
    simp [cleanupAndClear, cleanup, afterFfmpegSpawn, hfile]
  simp [runJob, startXvfb_eq, startChrome_eq, recordVideo_eq, hx, hc, hf, he, hout]

/-! ### Claims -/

/-- C1: for every accepted job, the tracked-process set is empty
immediately before the Provisioning stage starts (the state `admitJob s` in
which `startXvfb` is called) and empty again immediately after `submit`
returns, for every outcome `env` can produce.  The hypothesis
`s.activeProcesses = []` is the inductive invariant: it holds at service
start and is re-established by every `submit` return. -/
theorem c1_tracked_empty_before_and_after (env : Env) (req : Request)
    (s : ServerState) (h : s.activeProcesses = []) :
    (admitJob s).activeProcesses = [] ∧ (submit env req s).2.activeProcesses = [] := by
  constructor
  · simpa [admitJob] using h
  · by_cases h1 : s.isRecording = true
    · simp [submit, h1, h]
    · by_cases h2 : missingField req = true
      · simp [submit, h1, h2, h]
      · by_cases h3 : durationOutOfRange req = true
        · simp [submit, h1, h2, h3, h]
        · rw [submit_accepted env req s (by simpa using h1) (by simpa using h2)
            (by simpa using h3)]
          simp [clearFlag, runJob_clears]

/-- C1 witness: the invariant instantiated on a concrete full-success run. -/
theorem c1_witness :
    initState.activeProcesses = [] ∧
    ((admitJob initState).activeProcesses = [] ∧
      (submit envOk reqOk initState).2.activeProcesses = []) :=
  ⟨rfl, c1_tracked_empty_before_and_after envOk reqOk initState rfl⟩

/-- C2: while `isRecording` is set, every submission — valid or not — gets
the 429 response and the state is returned exactly as it was: no admission
flag change, no tracked-process change, no spawn, no filesystem change. -/
theorem c2_busy_rejected_without_side_effects (env : Env) (req : Request)
    (s : ServerState) (h : s.isRecording = true) :
    submit env req s = (Response.busy429, s) := by
  simp [submit, h]

/-- The state of a server mid-job, as seen by a second submission. -/
def busyState : ServerState := { initState with isRecording := true }

/-- C2 witness: a concrete busy-state submission (spec Scenario D). -/
theorem c2_witness :
    busyState.isRecording = true ∧
    submit envOk reqOk busyState = (Response.busy429, busyState) :=
  ⟨rfl, c2_busy_rejected_without_side_effects envOk reqOk busyState rfl⟩

/-- C3: for every admitted job (busy check and both validation checks
passed), the admission flag is set before Provisioning begins (the job runs
from `admitJob s`) and is `false` again when `submit` returns, whatever the
outcome, because the `finally` clause clears it on every exit path. -/
theorem c3_admission_flag_set_then_cleared (env : Env) (req : Request)
    (s : ServerState) (h1 : s.isRecording = false)
    (h2 : missingField req = false) (h3 : durationOutOfRange req = false) :
    (admitJob s).isRecording = true ∧ (submit env req s).2.isRecording = false := by
  refine ⟨rfl, ?_⟩
  rw [submit_accepted env req s h1 h2 h3]
  rfl

/-- C3 witness: concrete admitted job. -/
theorem c3_witness :
    initState.isRecording = false ∧ missingField reqOk = false ∧
    durationOutOfRange reqOk = false ∧
    ((admitJob initState).isRecording = true ∧
      (submit envOk reqOk initState).2.isRecording = false) :=
  ⟨rfl, by decide, by decide,
    c3_admission_flag_set_then_cleared envOk reqOk initState rfl (by decide) (by decide)⟩

/-- C4: when no job is active, a request that is missing a required field
or whose (numeric) duration is outside [1,300] is rejected with 400 before
admission: the returned state is exactly the input state, so the admission
flag was never set and nothing was spawned. -/
theorem c4_validation_rejected_before_admission (env : Env) (req : Request)
    (s : ServerState) (n : Int) (h1 : s.isRecording = false)
    (h2 : missingField req = true ∨
          (req.duration = JSVal.num n ∧ (n < 1 ∨ 300 < n))) :
    statusOf (submit env req s).1 = 400 ∧ (submit env req s).2 = s := by
  rcases h2 with hm | ⟨hd, hn⟩
  · simp [submit, h1, hm, statusOf]
  · by_cases hm : missingField req = true
    · simp [submit, h1, hm, statusOf]
    · have hr : durationOutOfRange req = true := by
        rcases hn with h | h <;> simp [durationOutOfRange, hd, jsLt, jsGt, toNum, h]
      simp [submit, h1, hm, hr, statusOf]

/-- C4 witness: spec Scenario C, `{videoId:"v2", duration:500}`. -/
theorem c4_witness :
    initState.isRecording = false ∧
    ((Request.mk (JSVal.str "v2") (JSVal.num 500) (JSVal.str "u")).duration
        = JSVal.num 500 ∧ ((500 : Int) < 1 ∨ (300 : Int) < 500)) ∧
    (statusOf (submit envOk
        (Request.mk (JSVal.str "v2") (JSVal.num 500) (JSVal.str "u")) initState).1 = 400 ∧
      (submit envOk
        (Request.mk (JSVal.str "v2") (JSVal.num 500) (JSVal.str "u")) initState).2 = initState) :=
  ⟨rfl, ⟨rfl, Or.inr (by decide)⟩,
    c4_validation_rejected_before_admission envOk
      (Request.mk (JSVal.str "v2") (JSVal.num 500) (JSVal.str "u")) initState 500 rfl
      (Or.inr ⟨rfl, Or.inr (by decide)⟩)⟩

/-- C5 counterexample: a run in which readiness is never confirmed within
the bounded window — the code inspects no render signal at all, so the
30-second window simply elapses and `validateVideo` resolves on its
'assuming video is ready' branch — yet the job does NOT fail with a
readiness-timeout error and the render host is NOT terminated before
Capturing: the encoder is spawned and the job returns 200. -/
theorem c5_counterexample :
    validateVideo false initialChecks = Except.ok () ∧
    statusOf (submit envOk reqOk initState).1 = 200 ∧
    "ffmpeg" ∈ (submit envOk reqOk initState).2.spawned := by
  refine ⟨validateVideo_not_killed initialChecks, ?_, ?_⟩
  · rw [submit_accepted envOk reqOk initState rfl (by decide) (by decide)]
    have h200 := runJob_success envOk (admitJob initState) rfl rfl rfl rfl rfl
    simp [h200, statusOf]
  · rw [submit_accepted envOk reqOk initState rfl (by decide) (by decide)]
    have := runJob_mem_ffmpeg envOk (admitJob initState) rfl rfl
    simpa [clearFlag] using this

/-- C5 amended: the launcher never fails by timeout.  If the render-host
spawn does not error, the prober waits out the bounded window (polling
every 2 s up to 30 s, checking only the handle's `killed` flag) and then
assumes readiness, and the admitted job proceeds to the Capturing stage
(the encoder is spawned); the render host is terminated only by the cleanup
phase afterwards, not by the prober. -/
theorem c5_amended_window_elapse_proceeds_to_capture (env : Env) (req : Request)
    (s : ServerState) (h1 : s.isRecording = false)
    (h2 : missingField req = false) (h3 : durationOutOfRange req = false)
    (hx : env.xvfbSpawnError = false) (hc : env.chromeSpawnError = false) :
    (∀ s' : ServerState, (startChrome env s').1 = Except.ok (chromeProc env)) ∧
    "ffmpeg" ∈ (submit env req s).2.spawned := by
  constructor
  · intro s'
    simp [startChrome_eq, hc]
  · rw [submit_accepted env req s h1 h2 h3]
    have := runJob_mem_ffmpeg env (admitJob s) hx hc
    simpa [clearFlag] using this

/-- C5 amended witness: the concrete full-success run reaches Capturing. -/
theorem c5_amended_witness :
    initState.isRecording = false ∧ missingField reqOk = false ∧
    durationOutOfRange reqOk = false ∧ envOk.xvfbSpawnError = false ∧
    envOk.chromeSpawnError = false ∧
    ((∀ s' : ServerState, (startChrome envOk s').1 = Except.ok (chromeProc envOk)) ∧
      "ffmpeg" ∈ (submit envOk reqOk initState).2.spawned) :=
  ⟨rfl, by decide, by decide, rfl, rfl,
    c5_amended_window_elapse_proceeds_to_capture envOk reqOk initState rfl
      (by decide) (by decide) rfl rfl⟩

/-- C6: the capture stage succeeds iff the encoder exits with code 0; and
when, on an admitted job whose earlier stages spawn fine, the encoder exits
with a non-zero code `c`, the handler answers 500 with the error carrying
`c`, and the local output file does not exist after `submit` returns (the
catch block unlinks it). -/
theorem c6_encoder_nonzero_fails_and_file_removed (env : Env) (req : Request)
    (s : ServerState) (c : Int) (h1 : s.isRecording = false)
    (h2 : missingField req = false) (h3 : durationOutOfRange req = false)
    (hx : env.xvfbSpawnError = false) (hc : env.chromeSpawnError = false)
    (hf : env.ffmpegSpawnError = false) (he : env.ffmpegExit = some c)
    (hc0 : c ≠ 0) :
    (∀ (env' : Env) (s' : ServerState), env'.ffmpegSpawnError = false →
        ((recordVideo env' s').1 = Except.ok () ↔ env'.ffmpegExit = some 0)) ∧
    (submit env req s).1 = Response.fail500 (RecErr.ffmpegExit (some c)) ∧
    statusOf (submit env req s).1 = 500 ∧
    (submit env req s).2.outputExists = false := by
  have hiff : ∀ (env' : Env) (s' : ServerState), env'.ffmpegSpawnError = false →
      ((recordVideo env' s').1 = Except.ok () ↔ env'.ffmpegExit = some 0) := by
    intro env' s' h
    by_cases hq : env'.ffmpegExit = some 0 <;> simp [recordVideo_eq, h, hq]
  have hne : ¬ env.ffmpegExit = some 0 := by
    rw [he]
    simpa using hc0
  have hrun : runJob env (admitJob s) =
      catchPath (RecErr.ffmpegExit (some c)) (afterFfmpegSpawn env
        (afterChromeSpawn env (afterXvfbSpawn env (admitJob s)))) := by
    simp [runJob, startXvfb_eq, startChrome_eq, recordVideo_eq, hx, hc, hf, hne, he, hc0]
  rw [submit_accepted env req s h1 h2 h3, hrun]
  exact ⟨hiff, rfl, rfl, rfl⟩

/-- C6 witness: spec Scenario F, the encoder exits with code 1. -/
theorem c6_witness :
    initState.isRecording = false ∧ missingField reqOk = false ∧
    durationOutOfRange reqOk = false ∧
    ({ envOk with ffmpegExit := some 1 } : Env).ffmpegExit = some 1 ∧ (1 : Int) ≠ 0 ∧
    ((submit { envOk with ffmpegExit := some 1 } reqOk initState).1
        = Response.fail500 (RecErr.ffmpegExit (some 1)) ∧
      statusOf (submit { envOk with ffmpegExit := some 1 } reqOk initState).1 = 500 ∧
      (submit { envOk with ffmpegExit := some 1 } reqOk initState).2.outputExists = false) :=
  ⟨rfl, by decide, by decide, rfl, by decide,
    ((c6_encoder_nonzero_fails_and_file_removed { envOk with ffmpegExit := some 1 }
        reqOk initState 1 rfl (by decide) (by decide) rfl rfl rfl rfl
        (by decide)).2)⟩

/-- A running process that ignores SIGTERM: alive, never yet signalled. -/
def stubbornProc : Proc :=
  { name := "Chrome", running := true, killed := false, survivesTerm := true }

/-- C7 (code bug evaluated at the failing input): for a running process
that ignores SIGTERM, `killProcess` sends SIGTERM — which sets Node's
`killed` flag because the signal was delivered — and then the 5-second
re-check `if (!process.killed)` sees `true` and skips the SIGKILL, so
`killProcess` resolves with the process still running and no forceful kill
ever sent, contradicting the escalating-termination claim. -/
theorem c7_no_sigkill_escalation :
    (killProcess stubbornProc).1 = [Sig.sigterm] ∧
    Sig.sigkill ∉ (killProcess stubbornProc).1 ∧
    (killProcess stubbornProc).2.running = true := by decide

/-- The run in which Xvfb spawns successfully but exits on its own inside
the 3-second settle window. -/
def envXvfbDies : Env := { envOk with xvfbExitsEarly := true }

/-- C8 (code bug evaluated at the failing input): Xvfb exits on its own
within the settle window, yet `startXvfb` resolves with the (dead) handle
rather than failing with DisplayStartFailure, because the settle check
reads `xvfb.killed` — still `false` for a self-exited process, since Node
sets it only after a successful `subprocess.kill` — instead of whether the
process exited. -/
theorem c8_early_exit_still_resolves :
    (startXvfb envXvfbDies initState).1 = Except.ok (xvfbProc envXvfbDies) ∧
    (xvfbProc envXvfbDies).running = false ∧
    (xvfbProc envXvfbDies).killed = false :=
  ⟨rfl, rfl, rfl⟩

/-- A server state with one tracked process. -/
def trackedOne : ServerState := { initState with activeProcesses := [stubbornProc] }

/-- C9 counterexample: with one tracked process, `cleanup()` terminates it
but returns with the tracked-process set still non-empty — `cleanup` itself
does not clear the set. -/
theorem c9_counterexample_cleanup_keeps_entries :
    (cleanup trackedOne).activeProcesses ≠ [] := by decide

/-- C9 amended: `cleanup` signals each tracked process in place and
preserves the number of tracked entries; the set is cleared to empty only
by the orchestrator's `activeProcesses = []` assignment that immediately
follows each `await cleanup()` in the handler (the `cleanupAndClear`
call-site pattern, used on both the success and the failure path). -/
theorem c9_amended_cleanup_preserves_and_caller_clears (s : ServerState) :
    (cleanup s).activeProcesses = s.activeProcesses.map (fun p => (killProcess p).2) ∧
    (cleanup s).activeProcesses.length = s.activeProcesses.length ∧
    (cleanupAndClear s).activeProcesses = [] :=
  ⟨rfl, by simp [cleanup], rfl⟩

/-- A request whose duration is the truthy non-numeric string "abc". -/
def reqNonNumeric : Request :=
  { videoId := JSVal.str "v1"
    duration := JSVal.str "abc"
    previewUrl := JSVal.str "https://example/v1" }

/-- C10: with duration `"abc"` (truthy, non-numeric) and the other fields
present, both range comparisons evaluate to false (NaN semantics), so
validation passes and — whatever the stages then do — the job is admitted:
the response is neither 400 nor 429 and the Provisioning spawn happens. -/
theorem c10_nonnumeric_duration_admitted (env : Env) :
    jsLt reqNonNumeric.duration (JSVal.num 1) = false ∧
    jsGt reqNonNumeric.duration (JSVal.num 300) = false ∧
    statusOf (submit env reqNonNumeric initState).1 ≠ 400 ∧
    statusOf (submit env reqNonNumeric initState).1 ≠ 429 ∧
    "Xvfb" ∈ (submit env reqNonNumeric initState).2.spawned := by
  have hacc := submit_accepted env reqNonNumeric initState rfl (by decide) (by decide)
  refine ⟨by decide, by decide, ?_, ?_, ?_⟩
  · rw [hacc]
    rcases runJob_status env (admitJob initState) with h | h <;> simp [h]
  · rw [hacc]
    rcases runJob_status env (admitJob initState) with h | h <;> simp [h]
  · rw [hacc]
    have := runJob_mem_xvfb env (admitJob initState)
    simpa [clearFlag] using this

end VideoRec
